import Mathlib

/-!
Shallow embedding of the `solarm-utils-rs` zfs request layer
(`src/lib.rs`, `src/zfs.rs`).

Modelling conventions:
* Rust `HashMap<String, String>` (the `ZfsProperties` wrapper) is modelled
  as an association list with unique keys; `insert` removes any entry with
  the same key and appends the new pair.  The iteration order of a Rust
  `HashMap` is unspecified, so the model fixes one concrete order; no
  theorem below depends on the relative order of distinct keys.
* `derive_builder`-generated builders are structures of `Option` fields
  (`None` = field never set).  The generated `build(&self)` first calls the
  custom validator and then extracts the fields in declaration order,
  replacing an unset optional field by its default and failing with
  `UninitializedField` on an unset required field.
* The process-invocation boundary (`fn zfs`) runs an external binary; the
  pure argument-serialization code that feeds it and the pure
  output-parsing code that consumes its stdout are embedded exactly, with
  the captured stdout as an explicit parameter.
* Rust's `str::lines` and `str::split_whitespace` are embedded at the
  character-list level (`splitPred`, `splitWs`); the whitespace class is
  the ASCII subset `' '`, `'\t'`, `'\r'`, `'\n'`, which coincides with
  `Char.isWhitespace` and covers every character the tool's `-Hp`
  machine-readable output can contain.
-/

/-- Error type of `src/lib.rs` (`enum Error`).  The `IOError` and
`FromUtf8Error` variants live at the process boundary and carry foreign
payloads; they are collapsed to payload-free markers here since no claim
inspects their contents. -/
inductive Error where
  | IOError : Error
  | FromUtf8Error : Error
  | ZfsBuilderErr : Error
  | ZFSError : String → Error
  | ZpoolError : String → Error
  | InvalidZfsListType : String → Error
deriving DecidableEq, Repr

/-- Error type for all zfs related builders (`enum ZfsBuilderError` in
`src/zfs.rs`). -/
inductive ZfsBuilderError where
  | UninitializedField : String → ZfsBuilderError
  | ValidationError : String → ZfsBuilderError
deriving DecidableEq, Repr

instance {ε α : Type} [DecidableEq ε] [DecidableEq α] : DecidableEq (Except ε α) :=
  fun x y =>
    match x, y with
    | Except.ok a, Except.ok b =>
      if h : a = b then isTrue (by rw [h]) else isFalse (fun hc => h (Except.ok.inj hc))
    | Except.error a, Except.error b =>
      if h : a = b then isTrue (by rw [h]) else isFalse (fun hc => h (Except.error.inj hc))
    | Except.ok _, Except.error _ => isFalse (fun hc => Except.noConfusion hc)
    | Except.error _, Except.ok _ => isFalse (fun hc => Except.noConfusion hc)

/-- Model of `struct ZfsProperties(HashMap<String, String>)`: an
association list with unique keys. -/
abbrev ZfsProperties := List (String × String)

/-- Model of `HashMap::insert`: the entry for `k`, if any, is replaced by
`(k, v)`.  The model normalizes the (unspecified) hash-map iteration order
so that the surviving entries keep their relative order and the inserted
key comes last. -/
def propsInsert (m : ZfsProperties) (k v : String) : ZfsProperties :=
  (m.filter (fun p => p.1 ≠ k)) ++ [(k, v)]

/-- Model of `impl Into<Vec<String>> for ZfsProperties`: each entry
becomes a `key=value` token (`format!("{}={}", key, value)`). -/
def propsTokens (m : ZfsProperties) : List String :=
  m.map (fun p => p.1 ++ "=" ++ p.2)

/-- Model of Rust's `str::contains` with a one-character needle (the only
form the source uses: `name.contains("@")`): membership of the character
in the string. -/
def strContains (s : String) (c : Char) : Bool :=
  s.data.any (fun x => x = c)

/-- The closed enumeration `enum ListType` of `src/zfs.rs`. -/
inductive ListType where
  | FileSystem
  | Snapshot
  | Volume
  | Bookmark
  | All
deriving DecidableEq, Repr

/-- Model of `impl Into<String> for ListType`. -/
def listTypeToString : ListType → String
  | ListType.FileSystem => "filesystem"
  | ListType.Snapshot => "snapshot"
  | ListType.Volume => "volume"
  | ListType.Bookmark => "bookmark"
  | ListType.All => "all"

/-- Model of `impl FromStr for ListType`: the Rust `match` on the string
is a sequence of equality tests with a catch-all error arm. -/
def listTypeFromStr (s : String) : Except Error ListType :=
  if s = "filesystem" then Except.ok ListType.FileSystem
  else if s = "snapshot" then Except.ok ListType.Snapshot
  else if s = "volume" then Except.ok ListType.Volume
  else if s = "bookmark" then Except.ok ListType.Bookmark
  else if s = "all" then Except.ok ListType.All
  else Except.error (Error.InvalidZfsListType s)

/-- A Request to either create a dataset or volume (`struct CreateRequest`).
`volsize` is `Option<String>`, `blocksize` is `Option<i32>` (modelled as
`Option Int`). -/
structure CreateRequest where
  name : String
  properties : ZfsProperties
  recursive : Bool
  volsize : Option String
  blocksize : Option Int
  sparse : Bool
deriving DecidableEq, Repr

/-- The `derive_builder`-generated `CreateRequestBuilder`: one `Option`
per field, all starting at `None`.  The `strip_option` setters only ever
store a present value, so the doubly-wrapped `Option<Option<_>>` fields
collapse to a single `Option` here. -/
structure CreateRequestBuilder where
  name : Option String := none
  properties : Option ZfsProperties := none
  recursive : Option Bool := none
  volsize : Option String := none
  blocksize : Option Int := none
  sparse : Option Bool := none
deriving DecidableEq, Repr

/-- Model of `CreateRequestBuilder::add_property` (lines 90-102 of
`src/zfs.rs`): clone the current map (or start from a singleton) and
insert the pair. -/
def CreateRequestBuilder.add_property (b : CreateRequestBuilder) (k v : String) :
    CreateRequestBuilder :=
  match b.properties with
  | some m => { b with properties := some (propsInsert m k v) }
  | none => { b with properties := some [(k, v)] }

/-- Model of `CreateRequestBuilder::validate` (lines 104-112): an unset
`name` passes; a set `name` containing `@` fails. -/
def CreateRequestBuilder.validate (b : CreateRequestBuilder) : Option String :=
  match b.name with
  | some n => if strContains n '@' then some "Invalid dataset name" else none
  | none => none

/-- The `derive_builder`-generated `CreateRequestBuilder::build`: the
custom validator runs first, then the fields are extracted in declaration
order, defaulted fields falling back to their defaults and the required
`name` failing with `UninitializedField` when unset. -/
def CreateRequestBuilder.build (b : CreateRequestBuilder) :
    Except ZfsBuilderError CreateRequest :=
  match b.validate with
  | some msg => Except.error (ZfsBuilderError.ValidationError msg)
  | none =>
    match b.name with
    | none => Except.error (ZfsBuilderError.UninitializedField "name")
    | some n =>
      Except.ok { name := n, properties := b.properties.getD [],
                  recursive := b.recursive.getD false, volsize := b.volsize,
                  blocksize := b.blocksize, sparse := b.sparse.getD false }

/-- Request to clone a snapshot (`struct CloneRequest`). -/
structure CloneRequest where
  snapshot : String
  target : String
  create_parents : Bool
  properties : ZfsProperties
deriving DecidableEq, Repr

/-- The `derive_builder`-generated `CloneRequestBuilder`. -/
structure CloneRequestBuilder where
  snapshot : Option String := none
  target : Option String := none
  create_parents : Option Bool := none
  properties : Option ZfsProperties := none
deriving DecidableEq, Repr

/-- Model of `CloneRequestBuilder::add_property` (lines 174-186). -/
def CloneRequestBuilder.add_property (b : CloneRequestBuilder) (k v : String) :
    CloneRequestBuilder :=
  match b.properties with
  | some m => { b with properties := some (propsInsert m k v) }
  | none => { b with properties := some [(k, v)] }

/-- Model of `CloneRequestBuilder::validate` (lines 188-202): the target
is checked first (must not contain `@`), then the snapshot (must contain
`@`); unset fields pass both checks. -/
def CloneRequestBuilder.validate (b : CloneRequestBuilder) : Option String :=
  match b.target with
  | some t =>
    if strContains t '@' then some "Invalid target name"
    else
      match b.snapshot with
      | some s => if strContains s '@' then none else some "Invalid snapshot name"
      | none => none
  | none =>
    match b.snapshot with
    | some s => if strContains s '@' then none else some "Invalid snapshot name"
    | none => none

/-- The generated `CloneRequestBuilder::build`: validator first, then
field extraction in declaration order (`snapshot` before `target`). -/
def CloneRequestBuilder.build (b : CloneRequestBuilder) :
    Except ZfsBuilderError CloneRequest :=
  match b.validate with
  | some msg => Except.error (ZfsBuilderError.ValidationError msg)
  | none =>
    match b.snapshot with
    | none => Except.error (ZfsBuilderError.UninitializedField "snapshot")
    | some s =>
      match b.target with
      | none => Except.error (ZfsBuilderError.UninitializedField "target")
      | some t =>
        Except.ok { snapshot := s, target := t,
                    create_parents := b.create_parents.getD false,
                    properties := b.properties.getD [] }

/-- Request to snapshot a dataset (`struct SnapshotRequest`). -/
structure SnapshotRequest where
  snapshot : String
  recursive : Bool
  properties : ZfsProperties
deriving DecidableEq, Repr

/-- The `derive_builder`-generated `SnapshotRequestBuilder`. -/
structure SnapshotRequestBuilder where
  snapshot : Option String := none
  recursive : Option Bool := none
  properties : Option ZfsProperties := none
deriving DecidableEq, Repr

/-- Model of `SnapshotRequestBuilder::add_property` (lines 250-262). -/
def SnapshotRequestBuilder.add_property (b : SnapshotRequestBuilder) (k v : String) :
    SnapshotRequestBuilder :=
  match b.properties with
  | some m => { b with properties := some (propsInsert m k v) }
  | none => { b with properties := some [(k, v)] }

/-- Model of `SnapshotRequestBuilder::validate` (lines 264-272): a set
snapshot name must contain `@`. -/
def SnapshotRequestBuilder.validate (b : SnapshotRequestBuilder) : Option String :=
  match b.snapshot with
  | some s => if strContains s '@' then none else some "Invalid snapshot name"
  | none => none

/-- The generated `SnapshotRequestBuilder::build`. -/
def SnapshotRequestBuilder.build (b : SnapshotRequestBuilder) :
    Except ZfsBuilderError SnapshotRequest :=
  match b.validate with
  | some msg => Except.error (ZfsBuilderError.ValidationError msg)
  | none =>
    match b.snapshot with
    | none => Except.error (ZfsBuilderError.UninitializedField "snapshot")
    | some s =>
      Except.ok { snapshot := s, recursive := b.recursive.getD false,
                  properties := b.properties.getD [] }

/-- Request to list datasets (`struct ListRequest`); every field is
optional or defaulted. -/
structure ListRequest where
  root : Option String
  list_types : List ListType
  recursion_depth : Option String
  recursive : Bool
  properties : ZfsProperties
deriving DecidableEq, Repr

/-- The `derive_builder`-generated `ListRequestBuilder`. -/
structure ListRequestBuilder where
  root : Option String := none
  list_types : Option (List ListType) := none
  recursion_depth : Option String := none
  recursive : Option Bool := none
  properties : Option ZfsProperties := none
deriving DecidableEq, Repr

/-- Model of `ListRequestBuilder::add_property` (lines 321-333). -/
def ListRequestBuilder.add_property (b : ListRequestBuilder) (k v : String) :
    ListRequestBuilder :=
  match b.properties with
  | some m => { b with properties := some (propsInsert m k v) }
  | none => { b with properties := some [(k, v)] }

/-- Model of `ListRequestBuilder::add_list_option` (lines 335-344): push
the new type at the end, preserving caller order. -/
def ListRequestBuilder.add_list_option (b : ListRequestBuilder) (t : ListType) :
    ListRequestBuilder :=
  match b.list_types with
  | some l => { b with list_types := some (l ++ [t]) }
  | none => { b with list_types := some [t] }

/-- The generated `ListRequestBuilder::build`: no custom validator and no
required field, so it always succeeds. -/
def ListRequestBuilder.build (b : ListRequestBuilder) :
    Except ZfsBuilderError ListRequest :=
  Except.ok { root := b.root, list_types := b.list_types.getD [],
              recursion_depth := b.recursion_depth, recursive := b.recursive.getD false,
              properties := b.properties.getD [] }

/-- Interleave the `-o` flag before each property token; this is the
declarative shape of the `for p in props { args.push("-o"); args.push(p) }`
loops shared by all serializers. -/
def oPairs : List String → List String
  | [] => []
  | p :: ps => "-o" :: p :: oPairs ps

/-- The argument-building portion of `fn create` (lines 115-146 of
`src/zfs.rs`), mirroring the sequence of `args.push` calls; the final
element handed to the tool is the request name. -/
def createArgs (req : CreateRequest) : List String :=
  let props := propsTokens req.properties
  let args : List String := []
  let args := if req.recursive then args ++ ["-p"] else args
  let args :=
    if req.volsize.isSome then
      let args := if req.sparse then args ++ ["-s"] else args
      match req.blocksize with
      | some b => args ++ ["-b", toString b]
      | none => args
    else args
  let args := props.foldl (fun a p => a ++ ["-o", p]) args
  let args :=
    match req.volsize with
    | some v => args ++ ["-V", v]
    | none => args
  args ++ [req.name]

/-- The argument-building portion of `fn list` (lines 383-416): `-r`
(with nested `-d <depth>`) only when recursive, the unconditional `-Hp`,
the property pairs, `-t` with the comma-joined types when any were given,
and finally the optional root. -/
def listArgs (req : ListRequest) : List String :=
  let props := propsTokens req.properties
  let args : List String := []
  let args :=
    if req.recursive then
      let args := args ++ ["-r"]
      match req.recursion_depth with
      | some d => args ++ ["-d", d]
      | none => args
    else args
  let args := args ++ ["-Hp"]
  let args := props.foldl (fun a p => a ++ ["-o", p]) args
  let args :=
    if 0 < req.list_types.length then
      args ++ ["-t", String.intercalate "," (req.list_types.map listTypeToString)]
    else args
  match req.root with
  | some r => args ++ [r]
  | none => args

/-- Split a character list at every character satisfying `p`, keeping
empty segments (the splitting character is consumed).  `splitPred p []`
is `[[]]`: an empty input is one empty segment, exactly like Rust's
`str::split`. -/
def splitPred (p : Char → Bool) : List Char → List (List Char)
  | [] => [[]]
  | c :: cs =>
    if p c then [] :: splitPred p cs
    else
      match splitPred p cs with
      | [] => [[c]]
      | l :: ls => (c :: l) :: ls

/-- Strip one trailing carriage return, as Rust's `str::lines` does to
each produced line. -/
def stripCr (l : List Char) : List Char :=
  if l.getLast? = some '\r' then l.dropLast else l

/-- Drop the final segment when it is empty: Rust's `str::lines` yields
no empty final line for input ending in a newline (and no line at all for
empty input). -/
def dropLastBlank : List (List Char) → List (List Char)
  | [] => []
  | [l] => if l.isEmpty then [] else [l]
  | l :: ls => l :: dropLastBlank ls

/-- Model of Rust's `str::lines`: split on `'\n'`, drop a trailing empty
segment, strip one trailing `'\r'` from each line. -/
def rustLines (s : String) : List (List Char) :=
  (dropLastBlank (splitPred (fun c => c = '\n') s.data)).map stripCr

/-- Model of Rust's `str::split_whitespace`: the maximal non-whitespace
runs, with no empty segments. -/
def splitWs (l : List Char) : List (List Char) :=
  (splitPred Char.isWhitespace l).filter (fun t => !t.isEmpty)

/-- The fields of one output line, as strings. -/
def lineFields (l : List Char) : List String :=
  (splitWs l).map (fun t => String.mk t)

/-- The output-parsing portion of `fn list` (lines 418-427): stdout is
split into lines, each line into whitespace-delimited fields. -/
def parseListOutput (s : String) : List (List String) :=
  (rustLines s).map lineFields

/-- A named, mountable storage object handle (`struct Dataset`). -/
structure Dataset where
  name : String
deriving DecidableEq, Repr

/-- A snapshot handle (`struct Snapshot`). -/
structure SnapshotHandle where
  name : String
deriving DecidableEq, Repr

/-- The post-processing of `fn open` (lines 227-230): the captured stdout
becomes the dataset name unchanged. -/
def openResult (stdout : String) : Dataset :=
  { name := stdout }

/-- The post-processing of `Dataset::get` and `Snapshot::get` (lines
501-503 and 536-538): the captured stdout is returned unchanged. -/
def getResult (stdout : String) : String :=
  stdout

/-- The post-processing of `Dataset::promote` (lines 510-514): the stdout
is discarded and the handle's own name is carried over. -/
def promoteResult (d : Dataset) (_stdout : String) : Dataset :=
  { name := d.name }

/-- Modelled from the spec: the trimming the specification ascribes to
scalar operations ("trimmed single-value text ... no leading or trailing
whitespace such as a trailing newline"), i.e. Rust's `str::trim`.  Used
only to compare the spec's description with the code's behaviour. -/
def specTrim (s : String) : String :=
  String.mk (((s.data.dropWhile Char.isWhitespace).reverse.dropWhile
    Char.isWhitespace).reverse)

/-- Explicit state-passing form of `CreateRequestBuilder::build`: in the
source `build` takes `&self` (a shared borrow), so the builder flows out
exactly as it flowed in. -/
def CreateRequestBuilder.buildSt (b : CreateRequestBuilder) :
    Except ZfsBuilderError CreateRequest × CreateRequestBuilder :=
  (b.build, b)

/-- Explicit state-passing form of `CloneRequestBuilder::build`. -/
def CloneRequestBuilder.buildSt (b : CloneRequestBuilder) :
    Except ZfsBuilderError CloneRequest × CloneRequestBuilder :=
  (b.build, b)

/-- Explicit state-passing form of `SnapshotRequestBuilder::build`. -/
def SnapshotRequestBuilder.buildSt (b : SnapshotRequestBuilder) :
    Except ZfsBuilderError SnapshotRequest × SnapshotRequestBuilder :=
  (b.build, b)

/-- Explicit state-passing form of `ListRequestBuilder::build`. -/
def ListRequestBuilder.buildSt (b : ListRequestBuilder) :
    Except ZfsBuilderError ListRequest × ListRequestBuilder :=
  (b.build, b)

/-! ## Helper lemmas -/

/-- The property-flag loop, restated declaratively: folding the pushes of
`-o p` over an accumulator appends the interleaved pair list. -/
theorem foldl_flag_pairs (props args : List String) :
    props.foldl (fun a p => a ++ ["-o", p]) args = args ++ oPairs props := by
  induction props generalizing args with
  | nil => simp [oPairs]
  | cons p ps ih => simp [oPairs, List.foldl_cons, ih]

/-- Splitting never produces an empty segment list. -/
theorem splitPred_ne_nil (p : Char → Bool) (l : List Char) : splitPred p l ≠ [] := by
  induction l with
  | nil => simp [splitPred]
  | cons c cs ih =>
    by_cases h : p c
    · simp [splitPred, h]
    · simp only [splitPred, h]
      cases hs : splitPred p cs with
      | nil => simp
      | cons l ls => simp

/-- Splitting a list that starts with a separator-free prefix followed by
a separator peels off that prefix as the first segment. -/
theorem splitPred_append (p : Char → Bool) (l r : List Char) (c : Char)
    (hl : ∀ x ∈ l, p x = false) (hc : p c = true) :
    splitPred p (l ++ c :: r) = l :: splitPred p r := by
  induction l with
  | nil => simp [splitPred, hc]
  | cons x xs ih =>
    have hx : p x = false := hl x (by simp)
    have hxs : ∀ y ∈ xs, p y = false := fun y hy => hl y (by simp [hy])
    simp only [List.cons_append, splitPred, hx, Bool.false_eq_true, if_false, List.append_eq]
    rw [ih hxs]

/-- `dropLastBlank` passes over every segment except the last. -/
theorem dropLastBlank_cons (l : List Char) (ls : List (List Char)) (h : ls ≠ []) :
    dropLastBlank (l :: ls) = l :: dropLastBlank ls := by
  cases ls with
  | nil => exact absurd rfl h
  | cons a as => simp [dropLastBlank]

/-- A list without a carriage return is unchanged by `stripCr`. -/
theorem stripCr_eq_self (l : List Char) (h : '\r' ∉ l) : stripCr l = l := by
  unfold stripCr
  cases hl : l.getLast? with
  | none => simp
  | some c =>
    by_cases hc : c = '\r'
    · exact absurd (List.mem_of_mem_getLast? hl) (hc ▸ h)
    · rw [if_neg (fun hcc => hc (Option.some.inj hcc))]

/-- Re-inserting the same key replaces the earlier insertion entirely. -/
theorem propsInsert_propsInsert (m : ZfsProperties) (k v₁ v₂ : String) :
    propsInsert (propsInsert m k v₁) k v₂ = propsInsert m k v₂ := by
  unfold propsInsert
  rw [List.filter_append, List.filter_filter]
  simp

/-- After an insertion the inserted key holds exactly one entry, carrying
the inserted value. -/
theorem propsInsert_filter_key (m : ZfsProperties) (k v : String) :
    (propsInsert m k v).filter (fun p => p.1 = k) = [(k, v)] := by
  unfold propsInsert
  rw [List.filter_append, List.filter_filter]
  simp

/-- A passing Create validation means any set name is `@`-free. -/
theorem create_validate_spec (b : CreateRequestBuilder) (h : b.validate = none) :
    ∀ n, b.name = some n → strContains n '@' = false := by
  intro n hn
  by_cases hc : strContains n '@'
  · simp only [CreateRequestBuilder.validate, hn, hc, if_true] at h
    exact absurd h (by simp)
  · simpa using hc

/-- A passing Clone validation means any set target is `@`-free and any
set snapshot contains `@`. -/
theorem clone_validate_spec (b : CloneRequestBuilder) (h : b.validate = none) :
    (∀ t, b.target = some t → strContains t '@' = false) ∧
    (∀ s, b.snapshot = some s → strContains s '@' = true) := by
  cases ht : b.target with
  | none =>
    cases hs : b.snapshot with
    | none => simp [ht, hs]
    | some s =>
      by_cases hc : strContains s '@'
      · simp [ht, hs, hc]
      · simp only [CloneRequestBuilder.validate, ht, hs] at h
        rw [if_neg hc] at h
        exact absurd h (by simp)
  | some t =>
    by_cases hct : strContains t '@'
    · simp only [CloneRequestBuilder.validate, ht, hct, if_true] at h
      exact absurd h (by simp)
    · cases hs : b.snapshot with
      | none => simp [ht, hs, by simpa using hct]
      | some s =>
        by_cases hcs : strContains s '@'
        · simp [ht, hs, hcs, by simpa using hct]
        · simp only [CloneRequestBuilder.validate, ht, hs] at h
          rw [if_neg hct, if_neg hcs] at h
          exact absurd h (by simp)

/-- A passing Snapshot validation means any set snapshot contains `@`. -/
theorem snapshot_validate_spec (b : SnapshotRequestBuilder) (h : b.validate = none) :
    ∀ s, b.snapshot = some s → strContains s '@' = true := by
  intro s hs
  by_cases hc : strContains s '@'
  · exact hc
  · simp only [SnapshotRequestBuilder.validate, hs] at h
    rw [if_neg hc] at h
    exact absurd h (by simp)

/-- A failing validator makes the Create build return exactly its
message as a `ValidationError`. -/
theorem createBuild_validationError (b : CreateRequestBuilder) (m : String)
    (h : b.validate = some m) :
    b.build = Except.error (ZfsBuilderError.ValidationError m) := by
  unfold CreateRequestBuilder.build
  rw [h]

/-- A failing validator makes the Clone build return exactly its message
as a `ValidationError`. -/
theorem cloneBuild_validationError (b : CloneRequestBuilder) (m : String)
    (h : b.validate = some m) :
    b.build = Except.error (ZfsBuilderError.ValidationError m) := by
  unfold CloneRequestBuilder.build
  rw [h]

/-- A failing validator makes the Snapshot build return exactly its
message as a `ValidationError`. -/
theorem snapshotBuild_validationError (b : SnapshotRequestBuilder) (m : String)
    (h : b.validate = some m) :
    b.build = Except.error (ZfsBuilderError.ValidationError m) := by
  unfold SnapshotRequestBuilder.build
  rw [h]

/-- A set Create name containing `@` fails validation with the dataset
message. -/
theorem create_validate_bad_name (b : CreateRequestBuilder) (n : String)
    (hn : b.name = some n) (hc : strContains n '@' = true) :
    b.validate = some "Invalid dataset name" := by
  simp [CreateRequestBuilder.validate, hn, hc]

/-- A set Clone target containing `@` fails validation with the target
message (the target is checked first). -/
theorem clone_validate_bad_target (b : CloneRequestBuilder) (t : String)
    (ht : b.target = some t) (hc : strContains t '@' = true) :
    b.validate = some "Invalid target name" := by
  simp [CloneRequestBuilder.validate, ht, hc]

/-- A set Clone snapshot without `@` fails validation with one of the two
messages (which one depends on whether the target also fails). -/
theorem clone_validate_bad_snapshot (b : CloneRequestBuilder) (s : String)
    (hs : b.snapshot = some s) (hc : strContains s '@' = false) :
    ∃ m, b.validate = some m := by
  cases ht : b.target with
  | none =>
    exact ⟨"Invalid snapshot name", by simp [CloneRequestBuilder.validate, ht, hs, hc]⟩
  | some t =>
    by_cases hct : strContains t '@'
    · exact ⟨"Invalid target name", by simp [CloneRequestBuilder.validate, ht, hct]⟩
    · exact ⟨"Invalid snapshot name",
        by simp [CloneRequestBuilder.validate, ht, hs, hc, hct]⟩

/-- A set Snapshot name without `@` fails validation. -/
theorem snapshot_validate_bad (b : SnapshotRequestBuilder) (s : String)
    (hs : b.snapshot = some s) (hc : strContains s '@' = false) :
    b.validate = some "Invalid snapshot name" := by
  simp [SnapshotRequestBuilder.validate, hs, hc]

/-- With a passing validator and an unset name, the Create build fails on
the missing required field. -/
theorem createBuild_uninit (b : CreateRequestBuilder) (hv : b.validate = none)
    (hn : b.name = none) :
    b.build = Except.error (ZfsBuilderError.UninitializedField "name") := by
  unfold CreateRequestBuilder.build
  rw [hv, hn]

/-- With a passing validator and an unset snapshot, the Clone build fails
on the first required field in declaration order. -/
theorem cloneBuild_uninit_snapshot (b : CloneRequestBuilder) (hv : b.validate = none)
    (hs : b.snapshot = none) :
    b.build = Except.error (ZfsBuilderError.UninitializedField "snapshot") := by
  unfold CloneRequestBuilder.build
  rw [hv, hs]

/-- With a passing validator, a set snapshot and an unset target, the
Clone build fails on the target field. -/
theorem cloneBuild_uninit_target (b : CloneRequestBuilder) (s : String)
    (hv : b.validate = none) (hs : b.snapshot = some s) (ht : b.target = none) :
    b.build = Except.error (ZfsBuilderError.UninitializedField "target") := by
  unfold CloneRequestBuilder.build
  rw [hv, hs, ht]

/-- With a passing validator and an unset snapshot, the Snapshot build
fails on the missing required field. -/
theorem snapshotBuild_uninit (b : SnapshotRequestBuilder) (hv : b.validate = none)
    (hs : b.snapshot = none) :
    b.build = Except.error (ZfsBuilderError.UninitializedField "snapshot") := by
  unfold SnapshotRequestBuilder.build
  rw [hv, hs]

/-- Inversion of a successful Create build: the validator passed and the
request name is the builder's set name. -/
theorem createBuild_ok_spec (b : CreateRequestBuilder) (r : CreateRequest)
    (h : b.build = Except.ok r) : b.validate = none ∧ b.name = some r.name := by
  cases hv : b.validate with
  | some m =>
    rw [createBuild_validationError b m hv] at h
    exact absurd h (by simp)
  | none =>
    cases hn : b.name with
    | none =>
      rw [createBuild_uninit b hv hn] at h
      exact absurd h (by simp)
    | some n =>
      simp only [CreateRequestBuilder.build, hv, hn, Except.ok.injEq] at h
      subst h
      exact ⟨rfl, rfl⟩

/-- Inversion of a successful Clone build: the validator passed and both
required fields were set to the request's values. -/
theorem cloneBuild_ok_spec (b : CloneRequestBuilder) (r : CloneRequest)
    (h : b.build = Except.ok r) :
    b.validate = none ∧ b.snapshot = some r.snapshot ∧ b.target = some r.target := by
  cases hv : b.validate with
  | some m =>
    rw [cloneBuild_validationError b m hv] at h
    exact absurd h (by simp)
  | none =>
    cases hs : b.snapshot with
    | none =>
      rw [cloneBuild_uninit_snapshot b hv hs] at h
      exact absurd h (by simp)
    | some s =>
      cases ht : b.target with
      | none =>
        rw [cloneBuild_uninit_target b s hv hs ht] at h
        exact absurd h (by simp)
      | some t =>
        simp only [CloneRequestBuilder.build, hv, hs, ht, Except.ok.injEq] at h
        subst h
        exact ⟨rfl, rfl, rfl⟩

/-- Inversion of a successful Snapshot build. -/
theorem snapshotBuild_ok_spec (b : SnapshotRequestBuilder) (r : SnapshotRequest)
    (h : b.build = Except.ok r) : b.validate = none ∧ b.snapshot = some r.snapshot := by
  cases hv : b.validate with
  | some m =>
    rw [snapshotBuild_validationError b m hv] at h
    exact absurd h (by simp)
  | none =>
    cases hs : b.snapshot with
    | none =>
      rw [snapshotBuild_uninit b hv hs] at h
      exact absurd h (by simp)
    | some s =>
      simp only [SnapshotRequestBuilder.build, hv, hs, Except.ok.injEq] at h
      subst h
      exact ⟨rfl, rfl⟩

/-! ## Claim theorems -/

/-- C1: `build()` enforces the operation naming rules.  A Create build
succeeds only with an `@`-free name; a Clone build succeeds only when the
source snapshot contains `@` and the target does not; a Snapshot build
succeeds only when the snapshot name contains `@`; and each violation of
a rule on a set field makes `build()` return a `ValidationError`.  The
serializers (`createArgs` and friends) consume only built requests, so a
failed build reaches no external invocation by construction. -/
theorem c1_build_enforces_naming :
    (∀ (b : CreateRequestBuilder) (r : CreateRequest),
        b.build = Except.ok r → strContains r.name '@' = false) ∧
    (∀ (b : CloneRequestBuilder) (r : CloneRequest),
        b.build = Except.ok r →
          strContains r.snapshot '@' = true ∧ strContains r.target '@' = false) ∧
    (∀ (b : SnapshotRequestBuilder) (r : SnapshotRequest),
        b.build = Except.ok r → strContains r.snapshot '@' = true) ∧
    (∀ (b : CreateRequestBuilder) (n : String),
        b.name = some n → strContains n '@' = true →
          b.build = Except.error (ZfsBuilderError.ValidationError "Invalid dataset name")) ∧
    (∀ (b : CloneRequestBuilder) (t : String),
        b.target = some t → strContains t '@' = true →
          b.build = Except.error (ZfsBuilderError.ValidationError "Invalid target name")) ∧
    (∀ (b : CloneRequestBuilder) (s : String),
        b.snapshot = some s → strContains s '@' = false →
          ∃ m, b.build = Except.error (ZfsBuilderError.ValidationError m)) ∧
    (∀ (b : SnapshotRequestBuilder) (s : String),
        b.snapshot = some s → strContains s '@' = false →
          b.build = Except.error (ZfsBuilderError.ValidationError "Invalid snapshot name")) := by
  refine ⟨?_, ?_, ?_, ?_, ?_, ?_, ?_⟩
  · intro b r h
    obtain ⟨hv, hn⟩ := createBuild_ok_spec b r h
    exact create_validate_spec b hv r.name hn
  · intro b r h
    obtain ⟨hv, hs, ht⟩ := cloneBuild_ok_spec b r h
    exact ⟨(clone_validate_spec b hv).2 r.snapshot hs,
           (clone_validate_spec b hv).1 r.target ht⟩
  · intro b r h
    obtain ⟨hv, hs⟩ := snapshotBuild_ok_spec b r h
    exact snapshot_validate_spec b hv r.snapshot hs
  · intro b n hn hc
    exact createBuild_validationError b _ (create_validate_bad_name b n hn hc)
  · intro b t ht hc
    exact cloneBuild_validationError b _ (clone_validate_bad_target b t ht hc)
  · intro b s hs hc
    obtain ⟨m, hm⟩ := clone_validate_bad_snapshot b s hs hc
    exact ⟨m, cloneBuild_validationError b m hm⟩
  · intro b s hs hc
    exact snapshotBuild_validationError b _ (snapshot_validate_bad b s hs hc)

/-- Witness for C1: the rules fire on concrete builders — a Create name
with `@` is rejected, and a successfully built Clone request satisfies
both containment rules. -/
theorem c1_build_enforces_naming_witness :
    CreateRequestBuilder.build { name := some "tank@bad" } =
      Except.error (ZfsBuilderError.ValidationError "Invalid dataset name") ∧
    (strContains (CloneRequest.mk "tank/ds@snap" "tank/copy" false []).snapshot '@' = true ∧
     strContains (CloneRequest.mk "tank/ds@snap" "tank/copy" false []).target '@' = false) ∧
    SnapshotRequestBuilder.build { snapshot := some "plainname" } =
      Except.error (ZfsBuilderError.ValidationError "Invalid snapshot name") :=
  ⟨c1_build_enforces_naming.2.2.2.1 { name := some "tank@bad" } "tank@bad" rfl (by decide),
   c1_build_enforces_naming.2.1
     { snapshot := some "tank/ds@snap", target := some "tank/copy" }
     (CloneRequest.mk "tank/ds@snap" "tank/copy" false []) (by decide),
   c1_build_enforces_naming.2.2.2.2.2.2 { snapshot := some "plainname" } "plainname"
     rfl (by decide)⟩

/-- Counterexample to C3: a Clone builder whose required `snapshot` field
was never set but whose `target` field holds `"a@b"` builds to a
`ValidationError`, not to `UninitializedField "snapshot"` — validation is
not deferred until required-field presence is established. -/
theorem c3_validation_order_counterexample :
    CloneRequestBuilder.build { snapshot := none, target := some "a@b" } =
      Except.error (ZfsBuilderError.ValidationError "Invalid target name") ∧
    CloneRequestBuilder.build { snapshot := none, target := some "a@b" } ≠
      Except.error (ZfsBuilderError.UninitializedField "snapshot") := by
  decide

/-- C3 amended: the generated `build()` runs the cross-field validator
*before* the required-field presence checks.  When the validator passes,
an unset required field yields `UninitializedField` naming the first
unset required field in declaration order; when the validator fails, the
result is `ValidationError` even if a required field is unset. -/
theorem c3_uninitialized_field_amended :
    (∀ b : CreateRequestBuilder, b.validate = none → b.name = none →
        b.build = Except.error (ZfsBuilderError.UninitializedField "name")) ∧
    (∀ b : CloneRequestBuilder, b.validate = none → b.snapshot = none →
        b.build = Except.error (ZfsBuilderError.UninitializedField "snapshot")) ∧
    (∀ (b : CloneRequestBuilder) (s : String), b.validate = none →
        b.snapshot = some s → b.target = none →
        b.build = Except.error (ZfsBuilderError.UninitializedField "target")) ∧
    (∀ b : SnapshotRequestBuilder, b.validate = none → b.snapshot = none →
        b.build = Except.error (ZfsBuilderError.UninitializedField "snapshot")) ∧
    (∀ (b : CreateRequestBuilder) (m : String), b.validate = some m →
        b.build = Except.error (ZfsBuilderError.ValidationError m)) ∧
    (∀ (b : CloneRequestBuilder) (m : String), b.validate = some m →
        b.build = Except.error (ZfsBuilderError.ValidationError m)) ∧
    (∀ (b : SnapshotRequestBuilder) (m : String), b.validate = some m →
        b.build = Except.error (ZfsBuilderError.ValidationError m)) :=
  ⟨fun b hv hn => createBuild_uninit b hv hn,
   fun b hv hs => cloneBuild_uninit_snapshot b hv hs,
   fun b s hv hs ht => cloneBuild_uninit_target b s hv hs ht,
   fun b hv hs => snapshotBuild_uninit b hv hs,
   fun b m hm => createBuild_validationError b m hm,
   fun b m hm => cloneBuild_validationError b m hm,
   fun b m hm => snapshotBuild_validationError b m hm⟩

/-- Witness for the amended C3: fresh builders with no field set fail on
their first required field, and a Clone builder with only a bad target
set fails on validation instead. -/
theorem c3_uninitialized_field_amended_witness :
    CreateRequestBuilder.build {} =
      Except.error (ZfsBuilderError.UninitializedField "name") ∧
    CloneRequestBuilder.build {} =
      Except.error (ZfsBuilderError.UninitializedField "snapshot") ∧
    CloneRequestBuilder.build { snapshot := some "a@b", target := none } =
      Except.error (ZfsBuilderError.UninitializedField "target") ∧
    CloneRequestBuilder.build { snapshot := none, target := some "x@y" } =
      Except.error (ZfsBuilderError.ValidationError "Invalid target name") :=
  ⟨c3_uninitialized_field_amended.1 {} (by decide) rfl,
   c3_uninitialized_field_amended.2.1 {} (by decide) rfl,
   c3_uninitialized_field_amended.2.2.1 { snapshot := some "a@b", target := none }
     "a@b" (by decide) rfl rfl,
   c3_uninitialized_field_amended.2.2.2.2.2.1
     { snapshot := none, target := some "x@y" } "Invalid target name" (by decide)⟩

/-- C7: converting every `ListType` to its lowercase token and parsing it
back yields the original variant, and every token outside the five parses
to the `InvalidZfsListType` domain-value error carrying that token. -/
theorem c7_list_type_round_trip :
    (∀ t : ListType, listTypeFromStr (listTypeToString t) = Except.ok t) ∧
    (∀ s : String, s ≠ "filesystem" → s ≠ "snapshot" → s ≠ "volume" →
        s ≠ "bookmark" → s ≠ "all" →
        listTypeFromStr s = Except.error (Error.InvalidZfsListType s)) := by
  constructor
  · intro t
    cases t <;> rfl
  · intro s h1 h2 h3 h4 h5
    simp [listTypeFromStr, h1, h2, h3, h4, h5]

/-- Witness for C7: the round trip at a concrete variant and the failure
at a concrete unknown token. -/
theorem c7_list_type_round_trip_witness :
    listTypeFromStr (listTypeToString ListType.Bookmark) = Except.ok ListType.Bookmark ∧
    listTypeFromStr "zvol" = Except.error (Error.InvalidZfsListType "zvol") :=
  ⟨c7_list_type_round_trip.1 ListType.Bookmark,
   c7_list_type_round_trip.2 "zvol" (by decide) (by decide) (by decide) (by decide)
     (by decide)⟩

/-- C8: inserting the same key twice keeps exactly one entry for that
key, holding the later value; at the builder level the first
`add_property` call is not observable at all, for each of the four
builders, so neither the built request nor its `-o` tokens can see the
earlier value. -/
theorem c8_add_property_last_wins :
    (∀ (m : ZfsProperties) (k v₁ v₂ : String),
        propsInsert (propsInsert m k v₁) k v₂ = propsInsert m k v₂) ∧
    (∀ (m : ZfsProperties) (k v₁ v₂ : String),
        (propsInsert (propsInsert m k v₁) k v₂).filter (fun p => p.1 = k) = [(k, v₂)]) ∧
    (∀ (b : CreateRequestBuilder) (k v₁ v₂ : String),
        (b.add_property k v₁).add_property k v₂ = b.add_property k v₂) ∧
    (∀ (b : CloneRequestBuilder) (k v₁ v₂ : String),
        (b.add_property k v₁).add_property k v₂ = b.add_property k v₂) ∧
    (∀ (b : SnapshotRequestBuilder) (k v₁ v₂ : String),
        (b.add_property k v₁).add_property k v₂ = b.add_property k v₂) ∧
    (∀ (b : ListRequestBuilder) (k v₁ v₂ : String),
        (b.add_property k v₁).add_property k v₂ = b.add_property k v₂) := by
  refine ⟨fun m k v₁ v₂ => propsInsert_propsInsert m k v₁ v₂,
          fun m k v₁ v₂ => propsInsert_propsInsert m k v₁ v₂ ▸ propsInsert_filter_key m k v₂,
          ?_, ?_, ?_, ?_⟩ <;>
    intro b k v₁ v₂ <;>
    cases hb : b.properties <;>
    simp [CreateRequestBuilder.add_property, CloneRequestBuilder.add_property,
      SnapshotRequestBuilder.add_property, ListRequestBuilder.add_property, hb,
      propsInsert_propsInsert, propsInsert]

/-- C9: `build()` borrows the builder immutably (`&self` in the source):
in the explicit state-passing form the builder comes back unchanged from
a successful or failed build, and rebuilding from the returned state
gives the same result, so the builder stays reusable. -/
theorem c9_build_read_only :
    (∀ b : CreateRequestBuilder, b.buildSt.2 = b ∧ b.buildSt.2.buildSt.1 = b.buildSt.1) ∧
    (∀ b : CloneRequestBuilder, b.buildSt.2 = b ∧ b.buildSt.2.buildSt.1 = b.buildSt.1) ∧
    (∀ b : SnapshotRequestBuilder, b.buildSt.2 = b ∧ b.buildSt.2.buildSt.1 = b.buildSt.1) ∧
    (∀ b : ListRequestBuilder, b.buildSt.2 = b ∧ b.buildSt.2.buildSt.1 = b.buildSt.1) :=
  ⟨fun _ => ⟨rfl, rfl⟩, fun _ => ⟨rfl, rfl⟩, fun _ => ⟨rfl, rfl⟩, fun _ => ⟨rfl, rfl⟩⟩

/-- Counterexample to C4: the code never trims the tool's stdout.  With
the trailing newline every real single-value output carries, `open` and
`get` return the newline-terminated text unchanged, which differs from
the trimmed text the claim promises. -/
theorem c4_scalar_trim_counterexample :
    getResult "test_value\n" = "test_value\n" ∧
    getResult "test_value\n" ≠ specTrim "test_value\n" ∧
    (openResult "testds\n").name = "testds\n" ∧
    (openResult "testds\n").name ≠ specTrim "testds\n" := by
  decide

/-- C4 amended: the scalar operations return the tool's captured stdout
verbatim — `open` stores it as the dataset name and `get` passes it
through, with no trimming — while `promote` ignores stdout entirely and
carries over the original handle's name. -/
theorem c4_scalar_passthrough_amended :
    (∀ out : String, getResult out = out) ∧
    (∀ out : String, (openResult out).name = out) ∧
    (∀ (d : Dataset) (out : String), (promoteResult d out).name = d.name) :=
  ⟨fun _ => rfl, fun _ => rfl, fun _ _ => rfl⟩

/-- Counterexample to C5: on the quoted input each line splits into three
whitespace-delimited fields (`pool/a`, `10`, `20`), not two. -/
theorem c5_two_fields_counterexample :
    (parseListOutput "pool/a\t10\t20\npool/b\t5\t5\n").map List.length = [3, 3] ∧
    (parseListOutput "pool/a\t10\t20\npool/b\t5\t5\n").map List.length ≠ [2, 2] := by
  decide

/-- C5 amended: the parser yields exactly two records of **three** fields
each, in input order, with no empty trailing record. -/
theorem c5_list_parse_amended :
    parseListOutput "pool/a\t10\t20\npool/b\t5\t5\n" =
      [["pool/a", "10", "20"], ["pool/b", "5", "5"]] := by
  decide

/-- C10: a blank line between two non-blank lines becomes an empty record
in place (it is not dropped), while the single trailing newline produces
no record: the parse of `a\n\nb\n` is exactly three records, the middle
one empty. -/
theorem c10_interior_blank_line (a b : String)
    (ha : '\n' ∉ a.data) (har : '\r' ∉ a.data) (_hane : a ≠ "")
    (hb : '\n' ∉ b.data) (hbr : '\r' ∉ b.data) (_hbne : b ≠ "") :
    parseListOutput (a ++ "\n" ++ "\n" ++ b ++ "\n") =
      [lineFields a.data, [], lineFields b.data] := by
  have hnl : ("\n" : String).data = ['\n'] := rfl
  have hdata : (a ++ "\n" ++ "\n" ++ b ++ "\n").data
      = a.data ++ '\n' :: ('\n' :: (b.data ++ ['\n'])) := by
    simp [String.data_append, hnl]
  have hpa : ∀ x ∈ a.data, (decide (x = '\n')) = false :=
    fun x hx => decide_eq_false (fun heq => ha (heq ▸ hx))
  have hpb : ∀ x ∈ b.data, (decide (x = '\n')) = false :=
    fun x hx => decide_eq_false (fun heq => hb (heq ▸ hx))
  unfold parseListOutput rustLines
  rw [hdata]
  rw [splitPred_append (fun c => c = '\n') a.data _ '\n' hpa (by decide)]
  have h2 : splitPred (fun c => c = '\n') ('\n' :: (b.data ++ ['\n']))
      = [] :: splitPred (fun c => c = '\n') (b.data ++ ['\n']) := by
    simp [splitPred]
  rw [h2, splitPred_append (fun c => c = '\n') b.data [] '\n' hpb (by decide)]
  have h3 : splitPred (fun c => c = '\n') [] = [[]] := rfl
  rw [h3]
  rw [dropLastBlank_cons _ _ (by simp), dropLastBlank_cons _ _ (by simp),
    dropLastBlank_cons _ _ (by simp)]
  have h4 : dropLastBlank [[]] = [] := by simp [dropLastBlank, List.isEmpty_nil]
  rw [h4]
  simp only [List.map_cons, List.map_nil, stripCr_eq_self a.data har,
    stripCr_eq_self b.data hbr]
  have h5 : stripCr [] = [] := rfl
  rw [h5]
  rfl

/-- Witness for C10: the general theorem instantiated at two concrete
newline-free lines. -/
theorem c10_interior_blank_line_witness :
    parseListOutput ("pool/a 1" ++ "\n" ++ "\n" ++ "pool/b 2" ++ "\n") =
      [lineFields ("pool/a 1").data, [], lineFields ("pool/b 2").data] :=
  c10_interior_blank_line "pool/a 1" "pool/b 2" (by decide) (by decide) (by decide)
    (by decide) (by decide) (by decide)

/-- C2: the serialized Create argument vector follows the grammar
`[-p]? [-s]? [-b <blocksize>]? (-o <k=v>)* [-V <volsize>]? <name>`:
`-p` appears iff `recursive`; the `-s` and `-b <blocksize>` group is
emitted only under a set `volsize` (and is empty when `volsize` is unset,
whatever `sparse` and `blocksize` hold); every `-o k=v` pair precedes the
`-V` flag; and the name is the final argument. -/
theorem c2_create_args_grammar (req : CreateRequest) :
    createArgs req =
      (if req.recursive then ["-p"] else [])
      ++ (if req.volsize.isSome then
            (if req.sparse then ["-s"] else [])
            ++ (match req.blocksize with
                | some b => ["-b", toString b]
                | none => [])
          else [])
      ++ oPairs (propsTokens req.properties)
      ++ (match req.volsize with
          | some v => ["-V", v]
          | none => [])
      ++ [req.name] := by
  simp only [createArgs, foldl_flag_pairs]
  cases req.volsize <;> cases req.blocksize <;> cases req.recursive <;>
    cases req.sparse <;> simp

/-- C6: the serialized List argument vector follows the grammar
`[-r [-d <depth>]]? -Hp (-o <k=v>)* [-t <type1,type2,...>]? <root>?`:
`-Hp` is always present; `-d <depth>` is emitted only under `recursive`
(a set `recursion_depth` with `recursive` false is dropped); `-t` is
emitted iff `list_types` is non-empty, with the tokens comma-joined in
caller order; and the optional root is the final argument. -/
theorem c6_list_args_grammar (req : ListRequest) :
    listArgs req =
      (if req.recursive then
         "-r" :: (match req.recursion_depth with
                  | some d => ["-d", d]
                  | none => [])
       else [])
      ++ ["-Hp"]
      ++ oPairs (propsTokens req.properties)
      ++ (if req.list_types = [] then []
          else ["-t", String.intercalate "," (req.list_types.map listTypeToString)])
      ++ (match req.root with
          | some r => [r]
          | none => []) := by
  simp only [listArgs, foldl_flag_pairs]
  cases req.recursive <;> cases req.recursion_depth <;> cases req.root <;>
    cases req.list_types <;> simp
